import Mathlib

/-
Verification development for the in-toto supply-chain verification fragment.

The repository fragment contains the demo driver (demo.py) and the verifylib
test suite (test/test_verifylib.py).  The verification engine itself
(in_toto.verifylib: verify_delete_rule, verify_create_rule, verify_match_rule,
verify_item_rules, verify_all_item_rules, verify_command_alignment) and the
signing layer are not part of the fragment; they are modelled here from the
specification (spec.md sections 3, 4.2, 4.3 and 4.6), and the model is checked
against the concrete inputs and expected outcomes of the test suite.

Strings are modelled as lists of Unicode code points (List Nat); the helper
str decodes a Lean string literal into that representation.
-/

set_option autoImplicit false
set_option linter.unusedVariables false

namespace InToto

/-- Strings of the modelled program: lists of Unicode code points. -/
abbrev Str := List Nat

/-- Decode a Lean string literal into the code point list model. -/
def str (s : String) : Str := s.data.map Char.toNat

/-- Upper-case a single ASCII code point (97 is lower a, 122 is lower z). -/
def upChar (c : Nat) : Nat := if 97 ≤ c ∧ c ≤ 122 then c - 32 else c

/-- Lower-case a single ASCII code point (65 is upper A, 90 is upper Z). -/
def lowChar (c : Nat) : Nat := if 65 ≤ c ∧ c ≤ 90 then c + 32 else c

/-- Upper-case a string, as the Python upper() call does on ASCII keywords. -/
def asciiUpper (s : Str) : Str := s.map upChar

/-- Lower-case a string on ASCII letters. -/
def asciiLower (s : Str) : Str := s.map lowChar

/-- Scan a character class body up to the closing bracket (code 93).
Returns the collected class members and the number of pattern code points
consumed, including the closing bracket. -/
def takeClass : Str → Option (List Nat × Nat)
  | [] => none
  | c :: rest =>
    if c = 93 then some ([], 1)
    else (takeClass rest).map (fun pr => (c :: pr.1, pr.2 + 1))

/-- Modelled from the spec: the glob matcher of the rule parser and matcher
component (spec section 4.3), which is not part of the source fragment.
It recognizes star (42), question mark (63) and character classes
(bracket 91 up to bracket 93); star does not cross the path separator (47);
matching is anchored at both ends.  The fuel argument dominates the sum of
the lengths of pattern and subject, which strictly decreases at every
recursive call, so the fuel never runs out when seeded by globMatch. -/
def globFuel : Nat → Str → Str → Bool
  | 0, _, _ => false
  | fuel + 1, p, s =>
    match p, s with
    | [], [] => true
    | [], _ :: _ => false
    | pc :: ps, sRest =>
      if pc = 42 then
        globFuel fuel ps sRest ||
          (match sRest with
            | [] => false
            | c :: cs => (c != 47) && globFuel fuel (pc :: ps) cs)
      else if pc = 63 then
        match sRest with
        | [] => false
        | _ :: cs => globFuel fuel ps cs
      else if pc = 91 then
        match takeClass ps with
        | some (cls, n) =>
          (match sRest with
            | [] => false
            | c :: cs => cls.contains c && globFuel fuel (ps.drop n) cs)
        | none =>
          match sRest with
          | [] => false
          | c :: cs => (pc == c) && globFuel fuel ps cs
      else
        match sRest with
        | [] => false
        | c :: cs => (pc == c) && globFuel fuel ps cs

/-- Anchored glob match of a pattern against a path. -/
def globMatch (p s : Str) : Bool := globFuel (p.length + s.length + 1) p s

/-- A digest set: mapping from hash algorithm name to lowercase hex digest. -/
abbrev DigestSet := List (Str × Str)

/-- An artifact set: mapping from path to digest set; paths unique. -/
abbrev ArtifactSet := List (Str × DigestSet)

/-- First-match association list lookup, the dictionary access of the model. -/
def assocGet {α : Type} (m : List (Str × α)) (k : Str) : Option α :=
  match m with
  | [] => none
  | (k2, v) :: rest => if k2 = k then some v else assocGet rest k

/-- The algorithm names present on both sides of a digest set comparison. -/
def commonAlgs (a b : DigestSet) : List Str :=
  (a.map Prod.fst).filter (fun alg => (assocGet b alg).isSome)

/-- Modelled from the spec (section 3): integrity comparison of two digest
sets uses the intersection of algorithms present on both sides; an empty
intersection is incomparable and counts as a mismatch. -/
def digestsAgree (a b : DigestSet) : Bool :=
  !(commonAlgs a b).isEmpty &&
    (commonAlgs a b).all (fun alg => decide (assocGet a alg = assocGet b alg))

/-- Modelled from the spec: the link record fields used by rule evaluation.
The byproducts, environment, command and signature fields of the full link
model play no role in the rule engine and are omitted. -/
structure Link where
  name : Str
  materials : ArtifactSet
  products : ArtifactSet
deriving DecidableEq

/-- The cross-step link index: mapping from step name to link. -/
abbrev LinkIndex := List (Str × Link)

/-- A rule is a heterogeneous array of strings, as in the source metadata. -/
abbrev Rule := List Str

/-- Error kinds of the rule evaluation engine (spec section 7). -/
inductive VerifyError
  /-- RuleVerificationFailed, with the failing rule kind message. -/
  | ruleVerificationFailed (msg : Str)
  /-- UnmatchedArtifacts: queue residue after all rules were applied. -/
  | unmatchedArtifacts (remaining : List Str)
  /-- Malformed rule tuple (the RuleSyntaxError kind of the spec). -/
  | badRuleFormat
  /-- An item under verification has no link in the link index. -/
  | missingLink (name : Str)
deriving DecidableEq

/-- True exactly on a RuleVerificationFailed outcome. -/
def isRVF {α : Type} : Except VerifyError α → Bool
  | .error (.ruleVerificationFailed _) => true
  | _ => false

/-- The queue elements hit by a pattern. -/
def source_hits (pattern : Str) (queue : List Str) : List Str :=
  queue.filter (fun q => globMatch pattern q)

/-- The target set paths hit by a pattern. -/
def target_hits (pattern : Str) (target : ArtifactSet) : List Str :=
  (target.map Prod.fst).filter (fun p => globMatch pattern p)

/-- Modelled from the spec (section 4.6): verify_create_rule.  The matched
queue elements must be non-empty, and exactly they are removed from the
queue; the residual queue is returned.  The rule keyword element is ignored
here, dispatch has already normalized it. -/
def verify_create_rule (rule : Rule) (artifact_queue : List Str) :
    Except VerifyError (List Str) :=
  match rule with
  | [_, pattern] =>
    if source_hits pattern artifact_queue = [] then
      .error (.ruleVerificationFailed (str "create"))
    else
      .ok (artifact_queue.filter (fun q => !(globMatch pattern q)))
  | _ => .error .badRuleFormat

/-- Modelled from the spec (section 4.6): verify_delete_rule.  Any matched
queue element means the artifact claimed deleted is still present, a
failure; on success the queue is unchanged and None is returned. -/
def verify_delete_rule (rule : Rule) (artifact_queue : List Str) :
    Except VerifyError Unit :=
  match rule with
  | [_, pattern] =>
    if source_hits pattern artifact_queue = [] then .ok ()
    else .error (.ruleVerificationFailed (str "delete"))
  | _ => .error .badRuleFormat

/-- The source type of a MATCH rule: MATERIAL or PRODUCT. -/
inductive SourceType
  | material
  | product
deriving DecidableEq

/-- The parsed form of a MATCH rule tuple. -/
structure MatchRule where
  src_type : SourceType
  pattern : Str
  dst_pattern : Option Str
  step_name : Str
deriving DecidableEq

/-- Modelled from the spec (section 3 grammar): parse a MATCH rule tuple,
either MATCH src_type pattern FROM step or, renamed,
MATCH src_type pattern AS dst_pattern FROM step.  The keyword element is
ignored, dispatch has already normalized it; the remaining reserved words
are case-sensitive. -/
def parse_match_rule (rule : Rule) : Option MatchRule :=
  match rule with
  | [_, st, pat, fr, step] =>
    if fr = str "FROM" then
      if st = str "MATERIAL" then some ⟨.material, pat, none, step⟩
      else if st = str "PRODUCT" then some ⟨.product, pat, none, step⟩
      else none
    else none
  | [_, st, pat, asKw, dst, fr, step] =>
    if asKw = str "AS" ∧ fr = str "FROM" then
      if st = str "MATERIAL" then some ⟨.material, pat, some dst, step⟩
      else if st = str "PRODUCT" then some ⟨.product, pat, some dst, step⟩
      else none
    else none
  | _ => none

/-- The target artifact set a MATCH rule compares against. -/
def matchTarget (mr : MatchRule) (link : Link) : ArtifactSet :=
  match mr.src_type with
  | .material => link.materials
  | .product => link.products

/-- The pattern applied on the target side: the destination pattern of a
renamed MATCH when present, the source pattern otherwise. -/
def match_target_pattern (mr : MatchRule) : Str :=
  match mr.dst_pattern with
  | none => mr.pattern
  | some dst => dst

/-- Split a pattern at its first star, returning the parts before and after. -/
def splitAtStar (p : Str) : Option (Str × Str) :=
  match p with
  | [] => none
  | c :: rest =>
    if c = 42 then some ([], rest)
    else (splitAtStar rest).map (fun pr => (c :: pr.1, pr.2))

/-- Modelled from the spec (section 4.6): the single-wildcard substitution
pattern to dst_pattern of a renamed MATCH: the code points matched by the
star of the source pattern replace the star of the destination pattern.
Without a star in the source pattern the destination pattern itself is the
target path. -/
def renameTarget (pattern dst s : Str) : Option Str :=
  match splitAtStar pattern with
  | none => some dst
  | some (pre, suf) =>
    if s.take pre.length = pre ∧ s.drop (s.length - suf.length) = suf ∧
        pre.length + suf.length ≤ s.length then
      let mid := (s.drop pre.length).take (s.length - pre.length - suf.length)
      some (match splitAtStar dst with
        | none => dst
        | some (dpre, dsuf) => dpre ++ mid ++ dsuf)
    else none

/-- The target path corresponding to a source hit: identical under plain
MATCH, renamed under AS. -/
def target_path (mr : MatchRule) (s : Str) : Option Str :=
  match mr.dst_pattern with
  | none => some s
  | some dst => renameTarget mr.pattern dst s

/-- One source hit is in order when its target path exists in the target
artifact set and the digest set recorded for the source path agrees with
the digest set recorded for the target path on their common algorithms. -/
def match_ok (mr : MatchRule) (artifacts target : ArtifactSet) (s : Str) : Bool :=
  match target_path mr s, assocGet artifacts s with
  | some t, some srcDig =>
    match assocGet target t with
    | some tgtDig => digestsAgree srcDig tgtDig
    | none => false
  | _, _ => false

/-- Modelled from the spec (section 4.6, MATCH semantics): verify_match_rule.
Source hits are the queue elements matching the pattern; target hits are the
target set paths matching the destination side pattern.  A cardinality
mismatch fails; a source hit whose target path is missing or whose digests
disagree fails; on success the source hits are removed from the queue and
the residual queue is returned. -/
def verify_match_rule (rule : Rule) (artifact_queue : List Str)
    (artifacts : ArtifactSet) (links : LinkIndex) :
    Except VerifyError (List Str) :=
  match parse_match_rule rule with
  | none => .error .badRuleFormat
  | some mr =>
    match assocGet links mr.step_name with
    | none => .error (.ruleVerificationFailed (str "match"))
    | some link =>
      if (source_hits mr.pattern artifact_queue).length =
          (target_hits (match_target_pattern mr) (matchTarget mr link)).length then
        if (source_hits mr.pattern artifact_queue).all
            (fun s => match_ok mr artifacts (matchTarget mr link) s) then
          .ok (artifact_queue.filter (fun q => !(globMatch mr.pattern q)))
        else .error (.ruleVerificationFailed (str "match"))
      else .error (.ruleVerificationFailed (str "match: cardinality"))

/-- Modelled from the spec: one step of the rule evaluation engine: the rule
keyword is normalized to upper case, then dispatched.  A DELETE rule leaves
the queue unchanged.  The spec leaves MODIFY loosely defined with the same
consumption rule as CREATE (section 4.6 and the design note); the model uses
that consumption rule. -/
def apply_rule (rule : Rule) (queue : List Str) (artifacts : ArtifactSet)
    (links : LinkIndex) : Except VerifyError (List Str) :=
  match rule with
  | [] => .error .badRuleFormat
  | kw :: _ =>
    if asciiUpper kw = str "CREATE" then verify_create_rule rule queue
    else if asciiUpper kw = str "DELETE" then
      match verify_delete_rule rule queue with
      | .ok _ => .ok queue
      | .error e => .error e
    else if asciiUpper kw = str "MODIFY" then verify_create_rule rule queue
    else if asciiUpper kw = str "MATCH" then
      verify_match_rule rule queue artifacts links
    else .error .badRuleFormat

/-- Apply a rule list in declaration order, threading the artifact queue. -/
def apply_rules (rules : List Rule) (queue : List Str)
    (artifacts : ArtifactSet) (links : LinkIndex) :
    Except VerifyError (List Str) :=
  match rules with
  | [] => .ok queue
  | r :: rest =>
    match apply_rule r queue artifacts links with
    | .error e => .error e
    | .ok q2 => apply_rules rest q2 artifacts links

/-- Modelled from the spec (section 4.6): verify_item_rules.  The queue is
initialized from the keys of the artifact set under evaluation, the rules
run in declaration order, and a non-empty residual queue is the
UnmatchedArtifacts failure. -/
def verify_item_rules (item_name : Str) (rules : List Rule)
    (artifacts : ArtifactSet) (links : LinkIndex) :
    Except VerifyError Unit :=
  match apply_rules rules (artifacts.map Prod.fst) artifacts links with
  | .error e => .error e
  | .ok [] => .ok ()
  | .ok (q :: qs) => .error (.unmatchedArtifacts (q :: qs))

/-- An item under rule verification: a step or an inspection.  Only the name
and the two rule lists matter to the rule engine; the other step and
inspection fields are omitted. -/
structure Item where
  name : Str
  material_matchrules : List Rule
  product_matchrules : List Rule
deriving DecidableEq

/-- Modelled from the spec and the test suite: verify_all_item_rules with
signature (items, links, target_links=None).  For each item the artifact
sets come from the item link found in links; the FROM names of MATCH rules
are resolved in target_links when it is supplied (inspection verification)
and in links itself otherwise.  The model takes the optional Python third
argument as an explicit Option, none standing for the omitted argument. -/
def verify_all_item_rules (items : List Item) (links : LinkIndex)
    (target_links : Option LinkIndex) : Except VerifyError Unit :=
  match items with
  | [] => .ok ()
  | item :: rest =>
    match assocGet links item.name with
    | none => .error (.missingLink item.name)
    | some link =>
      match verify_item_rules item.name item.material_matchrules
          link.materials (target_links.getD links) with
      | .error e => .error e
      | .ok _ =>
        match verify_item_rules item.name item.product_matchrules
            link.products (target_links.getD links) with
        | .error e => .error e
        | .ok _ => verify_all_item_rules rest links target_links

/-- Modelled from the spec (pipeline step five) and the test suite:
verify_command_alignment(command, expected_command).  On any element-wise
difference a warning recording the two commands is logged; the comparison
never fails.  The returned list is the logged warnings. -/
def verify_command_alignment (command expected_command : List Str) :
    List (List Str × List Str) :=
  if command = expected_command then []
  else [(command, expected_command)]

/-- Modelled from the spec: the pipeline fragment that runs the command
alignment checks of step five (warnings only) and the rule verification of
step eight, returning the verdict together with the logged warnings. -/
def verify_commands_and_rules (commands : List (List Str × List Str))
    (items : List Item) (links : LinkIndex) (target_links : Option LinkIndex) :
    Except VerifyError Unit × List (List Str × List Str) :=
  (verify_all_item_rules items links target_links,
    commands.foldr (fun c acc => verify_command_alignment c.1 c.2 ++ acc) [])

/-- Modelled from the spec (section 4.2): an abstract signing key.  The keyid
is a digest over the canonical encoding of the public key material and is
identical for the public and the public-plus-private presentation, so the
model identifies a key with its keyid. -/
structure Key where
  keyid : Nat
deriving DecidableEq

/-- A signature: the keyid of the signing key and the signature value. -/
structure Signature where
  keyid : Nat
  sig : Nat × List Nat
deriving DecidableEq

/-- Modelled from the spec (section 4.2): sign canonical payload bytes with a
private key, producing a signature whose value binds the key and the
payload. -/
def sign_payload (payload : List Nat) (k : Key) : Signature :=
  ⟨k.keyid, (k.keyid, payload)⟩

/-- Modelled from the spec (section 4.2): verify one signature over payload
bytes against one public key. -/
def verify_signature (payload : List Nat) (s : Signature) (k : Key) : Bool :=
  decide (s.keyid = k.keyid ∧ s.sig = (k.keyid, payload))

/-- The distinct keyids of the signatures that verify against some key of
the authorized set. -/
def accepted_keyids (payload : List Nat) (sigs : List Signature)
    (authorized : List Key) : List Nat :=
  ((sigs.filter (fun s =>
      authorized.any (fun k => verify_signature payload s k))).map
    Signature.keyid).dedup

/-- Modelled from the spec (section 4.2, threshold rule): the payload is
accepted iff at least n distinct keyids drawn from the authorized set each
verify; duplicate signatures by the same key count once. -/
def verify_threshold (payload : List Nat) (sigs : List Signature)
    (authorized : List Key) (n : Nat) : Bool :=
  decide (n ≤ (accepted_keyids payload sigs authorized).length)

/-- Modelled from the spec: the layout as seen by the signing layer: the
canonical encoding of its signable fields (which excludes the signatures)
together with the attached signatures. -/
structure Layout where
  payload : List Nat
  signatures : List Signature
deriving DecidableEq

/-- Modelled from the spec and demo.py: layout.sign appends one signature per
supplied key, each over the canonical payload. -/
def Layout.sign (l : Layout) (ks : List Key) : Layout :=
  ⟨l.payload, l.signatures ++ ks.map (sign_payload l.payload)⟩

/-- Modelled from the spec (pipeline step one): check the layout signatures
against the supplied layout key set using the threshold rule. -/
def verify_layout_signatures (l : Layout) (ks : List Key) (n : Nat) : Bool :=
  verify_threshold l.payload l.signatures ks n

/-- Map a function over the keyword element of a rule tuple, leaving the
rest of the tuple unchanged. -/
def map_rule_keyword (f : Str → Str) : Rule → Rule
  | [] => []
  | kw :: rest => f kw :: rest

/- Concrete sample data, taken from the test suite of the repository
(test/test_verifylib.py), used to instantiate the claim theorems. -/

/-- Dummy artifact hash of foo from the test suite. -/
def sha256_foo : Str :=
  str "d65165279105ca6773180500688df4bdc69a2c7b771752f0a46ef120b7fd8ec3"

/-- Dummy artifact hash of foobar from the test suite. -/
def sha256_foobar : Str :=
  str "155c693a6b7481f48626ebfc545f05236df679f0099225d6d0bc472e6dd21155"

/-- Dummy artifact hash of bar from the test suite. -/
def sha256_bar : Str :=
  str "cfdaaf1ab2e4661952a9dec5e8fa3c360c1b06b1a073e8493a7c46d2af8c504b"

/-- Dummy artifact hash of barfoo from the test suite. -/
def sha256_barfoo : Str :=
  str "2036784917e49b7685c7c17e03ddcae4a063979aa296ee5090b5bb8f8aeafc5d"

/-- Dummy artifact hash of foo.tar.gz from the test suite. -/
def sha256_foo_tar : Str :=
  str "93c3c35a039a6a3d53e81c5dbee4ebb684de57b7c8be11b8739fd35804a0e918"

/-- The link of the MATCH rule tests: materials foo and foobar, products bar
and barfoo. -/
def sample_link : Link :=
  ⟨str "link-1",
    [(str "foo", [(str "sha256", sha256_foo)]),
     (str "foobar", [(str "sha256", sha256_foobar)])],
    [(str "bar", [(str "sha256", sha256_bar)]),
     (str "barfoo", [(str "sha256", sha256_barfoo)])]⟩

/-- The link index of the MATCH rule tests. -/
def sample_links : LinkIndex := [(str "link-1", sample_link)]

/-- The link index of the item rule tests: link-1 with product foo. -/
def product_links : LinkIndex :=
  [(str "link-1",
    ⟨str "link-1", [], [(str "foo", [(str "sha256", sha256_foo)])]⟩)]

/-- The artifact set of the conflicting-rules scenario: the single artifact
foo. -/
def conflict_artifacts : ArtifactSet :=
  [(str "foo", [(str "sha256", sha256_foo)])]

/-- The dummy supply chain steps: write-code creates foo; package matches
foo from write-code, creates foo.tar.gz and deletes foo. -/
def chain_steps : List Item :=
  [⟨str "write-code", [], [[str "CREATE", str "foo"]]⟩,
   ⟨str "package",
     [[str "MATCH", str "PRODUCT", str "foo", str "FROM", str "write-code"]],
     [[str "CREATE", str "foo.tar.gz"], [str "DELETE", str "foo"]]⟩]

/-- The step links of the dummy supply chain. -/
def chain_step_links : LinkIndex :=
  [(str "write-code",
    ⟨str "write-code", [], [(str "foo", [(str "sha256", sha256_foo)])]⟩),
   (str "package",
    ⟨str "package",
      [(str "foo", [(str "sha256", sha256_foo)])],
      [(str "foo.tar.gz", [(str "sha256", sha256_foo_tar)])]⟩)]

/-- The dummy supply chain inspection: untar matches foo.tar.gz from package
and foo from write-code. -/
def chain_inspections : List Item :=
  [⟨str "untar",
     [[str "MATCH", str "PRODUCT", str "foo.tar.gz", str "FROM", str "package"]],
     [[str "MATCH", str "PRODUCT", str "foo", str "FROM", str "write-code"]]⟩]

/-- The inspection links of the dummy supply chain: only the untar link. -/
def chain_inspection_links : LinkIndex :=
  [(str "untar",
    ⟨str "untar",
      [(str "foo.tar.gz", [(str "sha256", sha256_foo_tar)])],
      [(str "foo", [(str "sha256", sha256_foo)])]⟩)]

/- General helper lemmas about the embedding, shared by the claim proofs. -/

/-- A successful association lookup means the key is among the mapped keys. -/
theorem assocGet_some_mem_keys {α : Type} {m : List (Str × α)} {k : Str}
    {v : α} (h : assocGet m k = some v) : k ∈ m.map Prod.fst := by
  induction m with
  | nil => simp [assocGet] at h
  | cons hd tl ih =>
    by_cases hk : hd.1 = k
    · simp [hk]
    · refine List.mem_cons_of_mem _ ?_
      apply ih
      obtain ⟨k2, v2⟩ := hd
      simpa [assocGet, hk] using h

/-- A duplicate-free list contained in another list is no longer than it. -/
theorem nodup_subset_length {α : Type} [DecidableEq α] {l1 l2 : List α}
    (h1 : l1.Nodup) (h2 : l1 ⊆ l2) : l1.length ≤ l2.length := by
  calc l1.length = l1.toFinset.card := (List.toFinset_card_of_nodup h1).symm
    _ ≤ l2.toFinset.card := by
        apply Finset.card_le_card
        intro x hx
        rw [List.mem_toFinset] at hx ⊢
        exact h2 hx
    _ ≤ l2.length := List.toFinset_card_le l2

/-- Upper-casing an ASCII code point twice equals upper-casing it once. -/
theorem upChar_upChar (c : Nat) : upChar (upChar c) = upChar c := by
  simp only [upChar]
  split_ifs <;> omega

/-- Upper-casing after lower-casing an ASCII code point equals upper-casing
it directly. -/
theorem upChar_lowChar (c : Nat) : upChar (lowChar c) = upChar c := by
  simp only [upChar, lowChar]
  split_ifs <;> omega

/-- Upper-casing a string twice equals upper-casing it once. -/
theorem asciiUpper_asciiUpper (s : Str) :
    asciiUpper (asciiUpper s) = asciiUpper s := by
  induction s with
  | nil => rfl
  | cons c cs ih =>
    simp only [asciiUpper, List.map_cons, upChar_upChar, List.map_map] at ih ⊢
    simpa [asciiUpper] using ih

/-- Upper-casing after lower-casing a string equals upper-casing it. -/
theorem asciiUpper_asciiLower (s : Str) :
    asciiUpper (asciiLower s) = asciiUpper s := by
  induction s with
  | nil => rfl
  | cons c cs ih =>
    simp only [asciiUpper, asciiLower, List.map_cons, upChar_lowChar] at ih ⊢
    simpa [asciiUpper, asciiLower] using ih

/-- The CREATE rule check does not look at the keyword element. -/
theorem verify_create_rule_head (a b : Str) (rest : List Str)
    (queue : List Str) :
    verify_create_rule (a :: rest) queue = verify_create_rule (b :: rest) queue :=
  match rest with
  | [] => rfl
  | [_] => rfl
  | _ :: _ :: _ => rfl

/-- The DELETE rule check does not look at the keyword element. -/
theorem verify_delete_rule_head (a b : Str) (rest : List Str)
    (queue : List Str) :
    verify_delete_rule (a :: rest) queue = verify_delete_rule (b :: rest) queue :=
  match rest with
  | [] => rfl
  | [_] => rfl
  | _ :: _ :: _ => rfl

/-- The MATCH rule grammar does not look at the keyword element. -/
theorem parse_match_rule_head (a b : Str) (rest : List Str) :
    parse_match_rule (a :: rest) = parse_match_rule (b :: rest) :=
  match rest with
  | [] => rfl
  | [_] => rfl
  | [_, _] => rfl
  | [_, _, _] => rfl
  | [_, _, _, _] => rfl
  | [_, _, _, _, _] => rfl
  | [_, _, _, _, _, _] => rfl
  | _ :: _ :: _ :: _ :: _ :: _ :: _ :: _ => rfl

/-- The MATCH rule check does not look at the keyword element. -/
theorem verify_match_rule_head (a b : Str) (rest : List Str)
    (queue : List Str) (artifacts : ArtifactSet) (links : LinkIndex) :
    verify_match_rule (a :: rest) queue artifacts links =
      verify_match_rule (b :: rest) queue artifacts links := by
  unfold verify_match_rule
  rw [parse_match_rule_head a b rest]

/-- A MATCH rule with a source hit that is not in order fails with
RuleVerificationFailed, either through the cardinality check or through the
per-hit check. -/
theorem match_rule_fails_of_bad_hit {rule : Rule} {queue : List Str}
    {artifacts : ArtifactSet} {links : LinkIndex} {mr : MatchRule}
    {link : Link} {s : Str}
    (hp : parse_match_rule rule = some mr)
    (hl : assocGet links mr.step_name = some link)
    (hs : s ∈ source_hits mr.pattern queue)
    (hbad : match_ok mr artifacts (matchTarget mr link) s = false) :
    isRVF (verify_match_rule rule queue artifacts links) = true := by
  have hall : (source_hits mr.pattern queue).all
      (fun s2 => match_ok mr artifacts (matchTarget mr link) s2) = false := by
    cases hc : (source_hits mr.pattern queue).all
        (fun s2 => match_ok mr artifacts (matchTarget mr link) s2) with
    | false => rfl
    | true =>
      have := List.all_eq_true.mp hc s hs
      rw [hbad] at this
      exact absurd this (by simp)
  by_cases hlen : (source_hits mr.pattern queue).length =
      (target_hits (match_target_pattern mr) (matchTarget mr link)).length
  · simp [verify_match_rule, hp, hl, hlen, hall, isRVF]
  · simp [verify_match_rule, hp, hl, hlen, isRVF]

/-- A source hit that passes the per-hit check has its target path present
in the target artifact set. -/
theorem match_ok_target_isSome {mr : MatchRule} {artifacts target : ArtifactSet}
    {s t : Str} (ht : target_path mr s = some t)
    (h : match_ok mr artifacts target s = true) :
    (assocGet target t).isSome = true := by
  unfold match_ok at h
  rw [ht] at h
  cases ha : assocGet artifacts s with
  | none => rw [ha] at h; simp at h
  | some srcD =>
    rw [ha] at h
    cases hb : assocGet target t with
    | none => simp [hb] at h
    | some tgtD => simp [hb]

/-- C5: a path matched by the pattern of a plain MATCH rule in both the
source artifact set and the target set, but no longer present in the
duplicate-free queue (for example because an earlier rule consumed it),
makes the MATCH rule fail; consequently the rule list of a CREATE foo and a
MATCH PRODUCT foo FROM link-1 over the single artifact foo fails in either
rule order. -/
theorem verify_match_rule_consumed_conflict :
    (∀ (rule : Rule) (queue : List Str) (artifacts : ArtifactSet)
        (links : LinkIndex) (mr : MatchRule) (link : Link) (p : Str),
      parse_match_rule rule = some mr →
      mr.dst_pattern = none →
      assocGet links mr.step_name = some link →
      queue.Nodup →
      globMatch mr.pattern p = true →
      (assocGet artifacts p).isSome = true →
      (assocGet (matchTarget mr link) p).isSome = true →
      p ∉ queue →
      isRVF (verify_match_rule rule queue artifacts links) = true)
    ∧ isRVF (verify_item_rules (str "test-item")
        [[str "CREATE", str "foo"],
         [str "MATCH", str "PRODUCT", str "foo", str "FROM", str "link-1"]]
        conflict_artifacts product_links) = true
    ∧ isRVF (verify_item_rules (str "test-item")
        [[str "MATCH", str "PRODUCT", str "foo", str "FROM", str "link-1"],
         [str "CREATE", str "foo"]]
        conflict_artifacts product_links) = true := by
  refine ⟨?_, by decide, by decide⟩
  intro rule queue artifacts links mr link p hp hd hl hnd hg hsa hta hout
  by_cases hlen : (source_hits mr.pattern queue).length =
      (target_hits (match_target_pattern mr) (matchTarget mr link)).length
  · by_cases hall : (source_hits mr.pattern queue).all
        (fun s => match_ok mr artifacts (matchTarget mr link) s) = true
    · exfalso
      have htpat : match_target_pattern mr = mr.pattern := by
        simp [match_target_pattern, hd]
      have hsub : ∀ s ∈ source_hits mr.pattern queue,
          s ∈ target_hits mr.pattern (matchTarget mr link) := by
        intro s hs
        have hmo := List.all_eq_true.mp hall s hs
        have hts : target_path mr s = some s := by simp [target_path, hd]
        have hsome := match_ok_target_isSome hts hmo
        have hmem : s ∈ (matchTarget mr link).map Prod.fst := by
          cases hb : assocGet (matchTarget mr link) s with
          | none => rw [hb] at hsome; simp at hsome
          | some v => exact assocGet_some_mem_keys hb
        have hglob : globMatch mr.pattern s = true :=
          (List.mem_filter.mp hs).2
        exact List.mem_filter.mpr ⟨hmem, hglob⟩
      have hsubset : (p :: source_hits mr.pattern queue) ⊆
          target_hits mr.pattern (matchTarget mr link) := by
        intro x hx
        rcases List.mem_cons.mp hx with hpx | hxs
        · subst hpx
          have hmem : x ∈ (matchTarget mr link).map Prod.fst := by
            cases hb : assocGet (matchTarget mr link) x with
            | none => rw [hb] at hta; simp at hta
            | some v => exact assocGet_some_mem_keys hb
          exact List.mem_filter.mpr ⟨hmem, hg⟩
        · exact hsub x hxs
      have hnodup : (p :: source_hits mr.pattern queue).Nodup := by
        refine List.nodup_cons.mpr ⟨?_, hnd.filter _⟩
        intro hpmem
        exact hout (List.mem_filter.mp hpmem).1
      have hle := nodup_subset_length hnodup hsubset
      rw [htpat] at hlen
      rw [List.length_cons] at hle
      omega
    · simp [verify_match_rule, hp, hl, hlen, hall, isRVF]
  · simp [verify_match_rule, hp, hl, hlen, isRVF]

/-- Witness for C5: foo is matched in the source artifact set and in the
target materials but the queue was reduced to bar, so the MATCH rule
fails. -/
theorem verify_match_rule_consumed_conflict_witness :
    isRVF (verify_match_rule
      [str "MATCH", str "MATERIAL", str "foo", str "FROM", str "link-1"]
      [str "bar"] [(str "foo", [(str "sha256", sha256_foo)])] sample_links) =
      true :=
  (verify_match_rule_consumed_conflict).1
    [str "MATCH", str "MATERIAL", str "foo", str "FROM", str "link-1"]
    [str "bar"] [(str "foo", [(str "sha256", sha256_foo)])] sample_links
    ⟨.material, str "foo", none, str "link-1"⟩ sample_link (str "foo")
    (by decide) rfl rfl (by decide) (by decide) rfl rfl (by decide)

/-- C2: For every queue and pattern, a CREATE rule fails (with
RuleVerificationFailed) exactly when no queue element matches the pattern;
when at least one element matches, exactly the matching elements are
removed and the remaining queue is returned; in particular CREATE star on
an empty queue fails, and on the queue holding foo it passes with an empty
residue. -/
theorem verify_create_rule_spec (kw pattern : Str) (queue : List Str) :
    (isRVF (verify_create_rule [kw, pattern] queue) = true ↔
      source_hits pattern queue = [])
    ∧ (source_hits pattern queue ≠ [] →
        verify_create_rule [kw, pattern] queue =
          Except.ok (queue.filter (fun q => !(globMatch pattern q))))
    ∧ verify_create_rule [str "CREATE", str "*"] [] =
        Except.error (.ruleVerificationFailed (str "create"))
    ∧ verify_create_rule [str "CREATE", str "*"] [str "foo"] = Except.ok [] := by
  refine ⟨?_, ?_, rfl, rfl⟩
  · by_cases h : source_hits pattern queue = [] <;>
      simp [verify_create_rule, h, isRVF]
  · intro h
    simp [verify_create_rule, h]

/-- Witness for C2: CREATE star consumes the whole queue holding foo. -/
theorem verify_create_rule_spec_witness :
    verify_create_rule [str "CREATE", str "*"] [str "foo"] = Except.ok [] :=
  (verify_create_rule_spec (str "CREATE") (str "*") [str "foo"]).2.1
    (by decide)

/-- C3: For every queue and pattern, a DELETE rule fails (with
RuleVerificationFailed) exactly when some queue element matches the
pattern, and on success the queue reaching the next rule is unchanged; in
particular DELETE star passes on the empty queue and fails on the non-empty
queue holding foo. -/
theorem verify_delete_rule_spec (kw pattern : Str) (queue : List Str)
    (artifacts : ArtifactSet) (links : LinkIndex) :
    (isRVF (verify_delete_rule [kw, pattern] queue) = true ↔
      source_hits pattern queue ≠ [])
    ∧ (source_hits pattern queue = [] →
        apply_rule [str "DELETE", pattern] queue artifacts links =
          Except.ok queue)
    ∧ verify_delete_rule [str "DELETE", str "*"] [] = Except.ok ()
    ∧ isRVF (verify_delete_rule [str "DELETE", str "*"] [str "foo"]) = true := by
  refine ⟨?_, ?_, rfl, by decide⟩
  · by_cases h : source_hits pattern queue = [] <;>
      simp [verify_delete_rule, h, isRVF]
  · intro h
    have hdk : asciiUpper (str "DELETE") = str "DELETE" := by decide
    have hne : ¬ (str "DELETE" = str "CREATE") := by decide
    simp [apply_rule, hdk, hne, verify_delete_rule, h]

/-- Witness for C3: DELETE with a non-matching pattern leaves the queue
holding foo unchanged. -/
theorem verify_delete_rule_spec_witness :
    apply_rule [str "DELETE", str "bar"] [str "foo"] [] [] =
      Except.ok [str "foo"] :=
  (verify_delete_rule_spec (str "DELETE") (str "bar") [str "foo"] [] []).2.1
    (by decide)

/-- C6: After all rules of an item have been applied in declaration order,
a non-empty residual queue is the UnmatchedArtifacts verification failure;
in particular an empty rule list applied to a non-empty artifact set
fails. -/
theorem verify_item_rules_unmatched (item_name : Str) (rules : List Rule)
    (artifacts : ArtifactSet) (links : LinkIndex) :
    (∀ q, apply_rules rules (artifacts.map Prod.fst) artifacts links =
        Except.ok q → q ≠ [] →
        verify_item_rules item_name rules artifacts links =
          Except.error (.unmatchedArtifacts q))
    ∧ (artifacts ≠ [] →
        verify_item_rules item_name [] artifacts links =
          Except.error (.unmatchedArtifacts (artifacts.map Prod.fst))) := by
  constructor
  · intro q hq hne
    cases q with
    | nil => exact absurd rfl hne
    | cons a as => simp [verify_item_rules, hq]
  · intro h
    cases artifacts with
    | nil => exact absurd rfl h
    | cons a as => simp [verify_item_rules, apply_rules]

/-- C4: a MATCH rule whose number of queue paths matching the pattern
differs from the number of target-set paths matching the pattern (after any
AS renaming of the target side pattern) fails with RuleVerificationFailed,
in either direction of the mismatch. -/
theorem verify_match_rule_cardinality (rule : Rule) (queue : List Str)
    (artifacts : ArtifactSet) (links : LinkIndex) (mr : MatchRule)
    (link : Link)
    (hp : parse_match_rule rule = some mr)
    (hl : assocGet links mr.step_name = some link)
    (hlen : (source_hits mr.pattern queue).length ≠
      (target_hits (match_target_pattern mr) (matchTarget mr link)).length) :
    verify_match_rule rule queue artifacts links =
      Except.error (.ruleVerificationFailed (str "match: cardinality")) := by
  simp [verify_match_rule, hp, hl, hlen]

/-- Witness for C4: one source hit bar against two target hits bar and
barfoo fails. -/
theorem verify_match_rule_cardinality_witness :
    verify_match_rule
      [str "MATCH", str "PRODUCT", str "bar*", str "FROM", str "link-1"]
      [str "bar"] [(str "bar", [(str "sha256", sha256_bar)])] sample_links =
      Except.error (.ruleVerificationFailed (str "match: cardinality")) :=
  verify_match_rule_cardinality
    [str "MATCH", str "PRODUCT", str "bar*", str "FROM", str "link-1"]
    [str "bar"] [(str "bar", [(str "sha256", sha256_bar)])] sample_links
    ⟨.product, str "bar*", none, str "link-1"⟩ sample_link
    (by decide) rfl (by decide)

/-- C1: for every MATCH rule evaluation on a parsed rule with a resolvable
link: on success every source hit passes the per-hit check (its target path
exists in the target set with digests agreeing on the common algorithms)
and the returned residual queue is the queue with exactly the source hits
removed; a source hit whose target path is missing from the target set, or
whose digest sets disagree on a common algorithm, makes the rule fail with
RuleVerificationFailed. -/
theorem verify_match_rule_sources (rule : Rule) (queue : List Str)
    (artifacts : ArtifactSet) (links : LinkIndex) (mr : MatchRule)
    (link : Link)
    (hp : parse_match_rule rule = some mr)
    (hl : assocGet links mr.step_name = some link) :
    (∀ q2, verify_match_rule rule queue artifacts links = Except.ok q2 →
      q2 = queue.filter (fun q => !(globMatch mr.pattern q))
      ∧ ∀ s ∈ source_hits mr.pattern queue,
          match_ok mr artifacts (matchTarget mr link) s = true)
    ∧ (∀ s ∈ source_hits mr.pattern queue, ∀ t,
        target_path mr s = some t →
        assocGet (matchTarget mr link) t = none →
        isRVF (verify_match_rule rule queue artifacts links) = true)
    ∧ (∀ s ∈ source_hits mr.pattern queue, ∀ t srcD tgtD alg,
        target_path mr s = some t →
        assocGet artifacts s = some srcD →
        assocGet (matchTarget mr link) t = some tgtD →
        alg ∈ commonAlgs srcD tgtD →
        assocGet srcD alg ≠ assocGet tgtD alg →
        isRVF (verify_match_rule rule queue artifacts links) = true) := by
  refine ⟨?_, ?_, ?_⟩
  · intro q2 hq2
    by_cases hlen : (source_hits mr.pattern queue).length =
        (target_hits (match_target_pattern mr) (matchTarget mr link)).length
    · by_cases hall : (source_hits mr.pattern queue).all
          (fun s => match_ok mr artifacts (matchTarget mr link) s) = true
      · simp [verify_match_rule, hp, hl, hlen, hall] at hq2
        exact ⟨hq2.symm, fun s hs => List.all_eq_true.mp hall s hs⟩
      · simp [verify_match_rule, hp, hl, hlen, hall] at hq2
    · simp [verify_match_rule, hp, hl, hlen] at hq2
  · intro s hs t ht hmiss
    refine match_rule_fails_of_bad_hit hp hl hs ?_
    unfold match_ok
    rw [ht]
    cases ha : assocGet artifacts s with
    | none => rfl
    | some srcD => simp [hmiss]
  · intro s hs t srcD tgtD alg ht hsrc htgt halg hiff
    refine match_rule_fails_of_bad_hit hp hl hs ?_
    have hred : match_ok mr artifacts (matchTarget mr link) s =
        digestsAgree srcD tgtD := by
      unfold match_ok
      rw [ht, hsrc]
      simp [htgt]
    rw [hred]
    cases hda : digestsAgree srcD tgtD with
    | false => rfl
    | true =>
      exfalso
      have h2 := hda
      simp only [digestsAgree, Bool.and_eq_true] at h2
      have := List.all_eq_true.mp h2.2 alg halg
      exact hiff (of_decide_eq_true this)

/-- Witness for C1: a source hit whose digest set disagrees with the target
on sha256 fails (the hashes-do-not-match scenario of the test suite). -/
theorem verify_match_rule_sources_witness :
    isRVF (verify_match_rule
      [str "MATCH", str "MATERIAL", str "foo", str "FROM", str "link-1"]
      [str "foo"] [(str "foo", [(str "sha256", sha256_bar)])] sample_links) =
      true :=
  (verify_match_rule_sources
    [str "MATCH", str "MATERIAL", str "foo", str "FROM", str "link-1"]
    [str "foo"] [(str "foo", [(str "sha256", sha256_bar)])] sample_links
    ⟨.material, str "foo", none, str "link-1"⟩ sample_link
    (by decide) rfl).2.2 (str "foo") (by decide) (str "foo")
    [(str "sha256", sha256_bar)] [(str "sha256", sha256_foo)]
    (str "sha256") rfl rfl rfl (by decide) (by decide)

/-- Witness for C6: the empty rule list fails on the artifact set holding
foo and bar, reporting both as unmatched. -/
theorem verify_item_rules_unmatched_witness :
    verify_item_rules (str "test-item") []
      [(str "foo", [(str "sha256", sha256_foo)]),
       (str "bar", [(str "sha256", sha256_bar)])] [] =
      Except.error (.unmatchedArtifacts [str "foo", str "bar"]) :=
  (verify_item_rules_unmatched (str "test-item") []
    [(str "foo", [(str "sha256", sha256_foo)]),
     (str "bar", [(str "sha256", sha256_bar)])] []).2 (by decide)

/-- C7: comparing a link command with an expected command never fails
verification: the verdict equals the verdict with equal commands, and on
any element-wise difference exactly one warning recording the two commands
is logged; the drifted vi command passes with exactly one warning. -/
theorem command_alignment_nonfatal (command expected_command : List Str)
    (items : List Item) (links : LinkIndex)
    (target_links : Option LinkIndex) :
    ((verify_commands_and_rules [(command, expected_command)] items links
        target_links).1 =
      (verify_commands_and_rules [(command, command)] items links
        target_links).1)
    ∧ ((verify_commands_and_rules [(command, expected_command)] items links
        target_links).2 =
      if command = expected_command then []
      else [(command, expected_command)])
    ∧ verify_commands_and_rules
        [([str "/usr/bin/vi", str "foo.py"], [str "vi", str "foo.py"])]
        [] [] none =
      (Except.ok (), [([str "/usr/bin/vi", str "foo.py"],
        [str "vi", str "foo.py"])]) := by
  refine ⟨rfl, ?_, rfl⟩
  by_cases h : command = expected_command <;>
    simp [verify_commands_and_rules, verify_command_alignment, h]

/-- Upper-casing the keyword before dispatch makes the one-rule evaluation
invariant under any keyword change that upper-cases the same. -/
theorem apply_rule_map_keyword (f : Str → Str)
    (hf : ∀ kw, asciiUpper (f kw) = asciiUpper kw)
    (rule : Rule) (queue : List Str) (artifacts : ArtifactSet)
    (links : LinkIndex) :
    apply_rule (map_rule_keyword f rule) queue artifacts links =
      apply_rule rule queue artifacts links := by
  cases rule with
  | nil => rfl
  | cons kw rest =>
    show apply_rule (f kw :: rest) queue artifacts links =
      apply_rule (kw :: rest) queue artifacts links
    simp only [apply_rule]
    rw [hf kw, verify_create_rule_head (f kw) kw rest queue,
      verify_delete_rule_head (f kw) kw rest queue,
      verify_match_rule_head (f kw) kw rest queue artifacts links]

/-- Rule list evaluation is invariant under any keyword change that
upper-cases the same, for every starting queue. -/
theorem apply_rules_map_keyword (f : Str → Str)
    (hf : ∀ kw, asciiUpper (f kw) = asciiUpper kw)
    (rules : List Rule) (queue : List Str) (artifacts : ArtifactSet)
    (links : LinkIndex) :
    apply_rules (rules.map (map_rule_keyword f)) queue artifacts links =
      apply_rules rules queue artifacts links := by
  induction rules generalizing queue with
  | nil => rfl
  | cons r rest ih =>
    simp only [List.map_cons, apply_rules,
      apply_rule_map_keyword f hf r queue artifacts links]
    cases apply_rule r queue artifacts links with
    | error e => rfl
    | ok q2 => exact ih q2

/-- C8: rule evaluation is invariant under the case of the rule keyword:
upper-casing or lower-casing every rule keyword of a rule list yields the
same verdict, while the rest of each tuple stays case-sensitive
(lower-casing the MATERIAL word of a MATCH rule changes the outcome from
passing to a malformed-rule failure). -/
theorem rule_keyword_case_invariant (item_name : Str) (rules : List Rule)
    (artifacts : ArtifactSet) (links : LinkIndex) :
    (verify_item_rules item_name (rules.map (map_rule_keyword asciiUpper))
        artifacts links =
      verify_item_rules item_name rules artifacts links)
    ∧ (verify_item_rules item_name (rules.map (map_rule_keyword asciiLower))
        artifacts links =
      verify_item_rules item_name rules artifacts links)
    ∧ verify_item_rules (str "test-item")
        [[str "match", str "MATERIAL", str "foo", str "FROM", str "link-1"]]
        [(str "foo", [(str "sha256", sha256_foo)])] sample_links =
      Except.ok ()
    ∧ verify_item_rules (str "test-item")
        [[str "MATCH", str "material", str "foo", str "FROM", str "link-1"]]
        [(str "foo", [(str "sha256", sha256_foo)])] sample_links =
      Except.error .badRuleFormat := by
  refine ⟨?_, ?_, rfl, rfl⟩
  · unfold verify_item_rules
    rw [apply_rules_map_keyword asciiUpper asciiUpper_asciiUpper]
  · unfold verify_item_rules
    rw [apply_rules_map_keyword asciiLower asciiUpper_asciiLower]

/-- A key set whose distinct keyids all have verifying signatures in the
signature list meets any threshold below the count of its distinct
keyids. -/
theorem threshold_of_distinct (payload : List Nat) (sigs : List Signature)
    (K : List Key) (n : Nat)
    (hn : n ≤ ((K.map Key.keyid).dedup).length)
    (hmem : ∀ k ∈ K, k.keyid ∈ ((sigs.filter (fun s =>
        K.any (fun k2 => verify_signature payload s k2))).map
        Signature.keyid)) :
    verify_threshold payload sigs K n = true := by
  unfold verify_threshold accepted_keyids
  refine decide_eq_true ?_
  calc n ≤ (K.map Key.keyid).dedup.length := hn
    _ = (K.map Key.keyid).toFinset.card := (List.card_toFinset _).symm
    _ ≤ ((sigs.filter (fun s => K.any (fun k2 =>
          verify_signature payload s k2))).map Signature.keyid).toFinset.card := by
        apply Finset.card_le_card
        intro x hx
        rw [List.mem_toFinset] at hx ⊢
        obtain ⟨k, hk, hkx⟩ := List.mem_map.mp hx
        rw [← hkx]
        exact hmem k hk
    _ = ((sigs.filter (fun s => K.any (fun k2 =>
          verify_signature payload s k2))).map Signature.keyid).dedup.length :=
        List.card_toFinset _

/-- C9: signing a layout with a key set whose distinct authorized keyids
meet the threshold, then verifying the signed layout against the same key
set, succeeds; and duplicate signatures by the same keyid count once toward
the threshold: signing with the duplicated key set accepts exactly as many
distinct keyids as signing once. -/
theorem layout_sign_verify_roundtrip (L : Layout) (K : List Key) (n : Nat)
    (hn : n ≤ ((K.map Key.keyid).dedup).length) :
    verify_layout_signatures (Layout.sign L K) K n = true
    ∧ (accepted_keyids L.payload (Layout.sign L (K ++ K)).signatures K).length =
      (accepted_keyids L.payload (Layout.sign L K).signatures K).length := by
  constructor
  · refine threshold_of_distinct L.payload
      (L.signatures ++ K.map (sign_payload L.payload)) K n hn ?_
    intro k hk
    refine List.mem_map.mpr ⟨sign_payload L.payload k, ?_, rfl⟩
    refine List.mem_filter.mpr ⟨?_, ?_⟩
    · exact List.mem_append_right _ (List.mem_map.mpr ⟨k, hk, rfl⟩)
    · refine List.any_eq_true.mpr ⟨k, hk, ?_⟩
      simp [verify_signature, sign_payload]
  · unfold accepted_keyids
    rw [← List.card_toFinset, ← List.card_toFinset]
    congr 1
    simp only [Layout.sign, List.map_append, List.filter_append,
      List.toFinset_append]
    rw [Finset.union_self]

/-- Witness for C9: two distinct keys meet the threshold two after signing,
with or without duplicated signatures. -/
theorem layout_sign_verify_roundtrip_witness :
    verify_layout_signatures
        (Layout.sign ⟨str "layout", []⟩ [⟨1⟩, ⟨2⟩]) [⟨1⟩, ⟨2⟩] 2 = true
    ∧ (accepted_keyids (str "layout")
        (Layout.sign ⟨str "layout", []⟩ ([⟨1⟩, ⟨2⟩] ++ [⟨1⟩, ⟨2⟩])).signatures
        [⟨1⟩, ⟨2⟩]).length =
      (accepted_keyids (str "layout")
        (Layout.sign ⟨str "layout", []⟩ [⟨1⟩, ⟨2⟩]).signatures
        [⟨1⟩, ⟨2⟩]).length :=
  layout_sign_verify_roundtrip ⟨str "layout", []⟩ [⟨1⟩, ⟨2⟩] 2 (by decide)

/-- C10: verify_all_item_rules takes the optional target_links argument,
none standing for the omitted Python default, under which the FROM names of
MATCH rules resolve in the links of the items themselves; when a separate
step-link index is supplied, the inspection rules verify although the
referenced step links are absent from the inspection links argument. -/
theorem verify_all_item_rules_target_links :
    (∀ (items : List Item) (links : LinkIndex),
      verify_all_item_rules items links none =
        verify_all_item_rules items links (some links))
    ∧ verify_all_item_rules chain_inspections chain_inspection_links
        (some chain_step_links) = Except.ok ()
    ∧ assocGet chain_inspection_links (str "package") = none
    ∧ assocGet chain_inspection_links (str "write-code") = none
    ∧ verify_all_item_rules chain_steps chain_step_links none =
        Except.ok () := by
  refine ⟨?_, rfl, rfl, rfl, rfl⟩
  intro items links
  induction items with
  | nil => rfl
  | cons item rest ih =>
    unfold verify_all_item_rules
    simp only [Option.getD]
    rw [ih]

end InToto

